import Mathlib

/-!
Shallow embedding of `anymail/webhooks/mailgun.py` (django-anymail, Mailgun
webhook views) and verification of its specification.

The source file defines three classes:
 * `MailgunBaseWebhookView.validate_request` — HMAC-SHA256 signature check;
 * `MailgunTrackingWebhookView.esp_to_anymail_event` — tracking payload mapper;
 * `MailgunInboundWebhookView.esp_to_anymail_event` /
   `message_from_mailgun_parsed` — inbound payload mapper.

Form payloads (Django `QueryDict`) are modelled as association lists of
strings; fallible Python code is modelled with `Except String` where the
string names the Python exception raised.  Python library primitives used by
the source (`int()`, `float()`, `json.loads`, `str.split`, `hmac`/`hashlib`)
are given executable Lean models below, each documented at its definition.
-/

namespace Mailgun

/-! ### Django QueryDict model

`request.POST` is a Django `QueryDict`: a multi-valued, case-sensitive
mapping.  We model it as an association list in insertion order.
`qd[key]` / `qd.get(key)` return the LAST value stored under `key`
(Django's `MultiValueDict.__getitem__` returns `list_[-1]`);
`qd.getlist(key)` returns every value, or the default when the key is
absent. -/

abbrev QueryDict := List (String × String)

/-- All values stored under `k`, in order (Django `getlist` without default). -/
def getlistRaw (q : QueryDict) (k : String) : List String :=
  (q.filter (fun kv => kv.1 = k)).map (fun kv => kv.2)

/-- `qd.get(k)` / `qd[k]` as an `Option`: the last value under `k`. -/
def qget? (q : QueryDict) (k : String) : Option String :=
  (getlistRaw q k).getLast?

/-- `qd.getlist(k, default)`: every value under `k`, or `default` when the
key is absent. -/
def qgetlist (q : QueryDict) (k : String) (d : List String) : List String :=
  if (getlistRaw q k).isEmpty then d else getlistRaw q k

/-! ### Python primitive models -/

/-- Python `str.strip()` whitespace characters (the ASCII ones). -/
def isPySpace (c : Char) : Bool :=
  c = ' ' ∨ c = '\t' ∨ c = '\n' ∨ c = '\r' ∨ c = '\x0b' ∨ c = '\x0c'

/-- ASCII decimal digits folded to a `Nat`; `none` when empty or non-digit. -/
def digits? (ds : List Char) : Option Nat :=
  if ds ≠ [] ∧ ds.all Char.isDigit then
    some (ds.foldl (fun a c => 10 * a + (c.toNat - 48)) 0)
  else none

/-- Model of Python `int(s)` on `str` input: optional surrounding whitespace,
optional sign, one or more ASCII decimal digits; `none` stands for the
`ValueError` raised on anything else.  (CPython additionally accepts
underscore digit grouping and non-ASCII unicode digits; no payload field in
this development uses those.) -/
def pyInt? (s : String) : Option Int :=
  let cs := ((s.data.dropWhile isPySpace).reverse.dropWhile isPySpace).reverse
  match cs with
  | '-' :: ds => (digits? ds).map (fun n => -(n : Int))
  | '+' :: ds => (digits? ds).map (fun n => (n : Int))
  | ds => (digits? ds).map (fun n => (n : Int))

/-- Value of the decimal literal `intPart [. fracPart] [e exp]` as a rational. -/
def decimalVal (ip fp : List Char) (e : Int) : ℚ :=
  let m : ℚ := ((digits? (ip ++ fp)).getD 0 : ℚ) / ((10 : ℚ) ^ fp.length)
  m * (10 : ℚ) ^ e

/-- Parse an optional sign, returning (sign, rest). -/
def parseSign : List Char → Bool × List Char
  | '-' :: cs => (true, cs)
  | '+' :: cs => (false, cs)
  | cs => (false, cs)

/-- Model of Python `float(s)` restricted to finite decimal literals:
optional whitespace and sign, then `digits [. digits] | . digits`, then an
optional exponent part.  The special values `inf`/`nan` are not modelled
(no payload in this development uses them); the result is the exact rational
value of the literal. -/
def pyFloat? (s : String) : Option ℚ :=
  let cs := ((s.data.dropWhile isPySpace).reverse.dropWhile isPySpace).reverse
  let (neg, cs) := parseSign cs
  let ip := cs.takeWhile Char.isDigit
  let cs := cs.dropWhile Char.isDigit
  let (fp, cs) :=
    match cs with
    | '.' :: rest => (rest.takeWhile Char.isDigit, rest.dropWhile Char.isDigit)
    | _ => ([], cs)
  if ip = [] ∧ fp = [] then none
  else
    let mant : ℚ := decimalVal ip fp 0
    let signed : ℚ := if neg then -mant else mant
    match cs with
    | [] => some signed
    | 'e' :: rest => (pyExp? rest).map (fun e => signed * (10 : ℚ) ^ e)
    | 'E' :: rest => (pyExp? rest).map (fun e => signed * (10 : ℚ) ^ e)
    | _ => none
where
  /-- Exponent part after `e`/`E`: optional sign, digits, end of string. -/
  pyExp? (cs : List Char) : Option Int :=
    let (neg, cs) := parseSign cs
    (digits? cs).map (fun n => if neg then -(n : Int) else (n : Int))

/-- Model of Python `s.startswith(c)` for a single-character needle:
true iff the first character is `c`. -/
def pyStartsWith (s : String) (c : Char) : Bool :=
  s.data.head? = some c

/-- Model of Python `s.endswith(c)` for a single-character needle. -/
def pyEndsWith (s : String) (c : Char) : Bool :=
  s.data.getLast? = some c

/-- Model of Python `s.split('.')[0]`: the characters before the first `'.'`
(`str.split` always yields a non-empty list, so index 0 never fails). -/
def firstDotSegment (s : String) : String :=
  String.mk (s.data.takeWhile (fun c => c ≠ '.'))

/-! ### JSON model (`json.loads`)

The source calls `json.loads` on the `message-headers` field, on each
`X-Mailgun-Variables` header value, and on the `content-id-map` field.  JSON
values are modelled by the `Json` inductive; numbers are modelled as exact
rationals (`NaN`/`Infinity`, which CPython's `json` accepts by default, are
not modelled — no payload in this development uses them, and they are not
valid JSON).  `json_loads` is a strict recursive-descent parser following
Python's grammar: it rejects trailing data, leading zeros, raw control
characters in strings, and lone `'.'`/sign characters. -/

inductive Json where
  | null
  | bool (b : Bool)
  | num (q : ℚ)
  | str (s : String)
  | arr (elems : List Json)
  | obj (entries : List (String × Json))

/-- Python `==` between a decoded JSON value and a `str`: true only for an
equal JSON string. -/
def Json.isStrEq (j : Json) (s : String) : Bool :=
  match j with
  | .str t => t = s
  | _ => false

/-- Skip JSON whitespace. -/
def skipWs : List Char → List Char
  | c :: cs => if c = ' ' ∨ c = '\t' ∨ c = '\n' ∨ c = '\r' then skipWs cs else c :: cs
  | [] => []

/-- Hex digit value. -/
def hexVal? (c : Char) : Option Nat :=
  if '0' ≤ c ∧ c ≤ '9' then some (c.toNat - 48)
  else if 'a' ≤ c ∧ c ≤ 'f' then some (c.toNat - 87)
  else if 'A' ≤ c ∧ c ≤ 'F' then some (c.toNat - 55)
  else none

/-- Parse a JSON string body (after the opening quote), returning the string
and the remaining input.  `\uXXXX` escapes become the character with that
code point (surrogate-pair combining is not modelled; no payload here uses
astral characters). -/
def parseStr (cs : List Char) (acc : List Char) : Except String (String × List Char) :=
  match cs with
  | [] => .error "JSONDecodeError: unterminated string"
  | '"' :: rest => .ok (String.mk acc.reverse, rest)
  | '\\' :: e :: rest =>
    match e with
    | '"' => parseStr rest ('"' :: acc)
    | '\\' => parseStr rest ('\\' :: acc)
    | '/' => parseStr rest ('/' :: acc)
    | 'b' => parseStr rest ('\x08' :: acc)
    | 'f' => parseStr rest ('\x0c' :: acc)
    | 'n' => parseStr rest ('\n' :: acc)
    | 'r' => parseStr rest ('\r' :: acc)
    | 't' => parseStr rest ('\t' :: acc)
    | 'u' =>
      match rest with
      | a :: b :: c :: d :: rest2 =>
        match hexVal? a, hexVal? b, hexVal? c, hexVal? d with
        | some ha, some hb, some hc, some hd =>
          parseStr rest2 (Char.ofNat (((ha * 16 + hb) * 16 + hc) * 16 + hd) :: acc)
        | _, _, _, _ => .error "JSONDecodeError: invalid unicode escape"
      | _ => .error "JSONDecodeError: invalid unicode escape"
    | _ => .error "JSONDecodeError: invalid escape"
  | c :: rest =>
    if c.toNat < 32 then .error "JSONDecodeError: invalid control character"
    else parseStr rest (c :: acc)

/-- Parse a JSON number (maximal match of Python's `NUMBER_RE`:
`-?(0|[1-9]\d*)(\.\d+)?([eE][-+]?\d+)?`). -/
def parseNum (cs : List Char) : Except String (ℚ × List Char) :=
  let (neg, cs1) := match cs with
    | '-' :: r => (true, r)
    | _ => (false, cs)
  match cs1 with
  | [] => .error "JSONDecodeError: expecting value"
  | c :: _ =>
    if ¬ c.isDigit then .error "JSONDecodeError: expecting value"
    else
      let (ip, cs2) :=
        if c = '0' then (['0'], cs1.tail)
        else (cs1.takeWhile Char.isDigit, cs1.dropWhile Char.isDigit)
      let (fp, cs3) :=
        match cs2 with
        | '.' :: r =>
          if (r.takeWhile Char.isDigit) ≠ [] then
            (r.takeWhile Char.isDigit, r.dropWhile Char.isDigit)
          else ([], cs2)
        | _ => ([], cs2)
      let expPart : Option (Int × List Char) :=
        match cs3 with
        | 'e' :: r | 'E' :: r =>
          let (eneg, r1) := parseSign r
          let ed := r1.takeWhile Char.isDigit
          if ed ≠ [] then
            some ((if eneg then -(((digits? ed).getD 0 : Nat) : Int)
                   else (((digits? ed).getD 0 : Nat) : Int)),
                  r1.dropWhile Char.isDigit)
          else none
        | _ => none
      let (e, cs4) := expPart.getD (0, cs3)
      let v := decimalVal ip fp e
      .ok ((if neg then -v else v), cs4)

/-- Insert into a Python-dict model: an existing key keeps its position but
takes the new value; a new key is appended. -/
def objInsert (kvs : List (String × Json)) (k : String) (v : Json) :
    List (String × Json) :=
  if (kvs.map Prod.fst).contains k then
    kvs.map (fun kv => if kv.1 = k then (k, v) else kv)
  else kvs ++ [(k, v)]

/-- Build the Python dict from object entries in source order (later
duplicate keys override earlier values, as in `dict(pairs)`). -/
def objFinish (entries : List (String × Json)) : List (String × Json) :=
  entries.foldl (fun m kv => objInsert m kv.1 kv.2) []

mutual

/-- Parse one JSON value.  `fuel` bounds nesting depth; `json_loads` supplies
enough fuel for any input of the given length. -/
def parseVal : Nat → List Char → Except String (Json × List Char)
  | 0, _ => .error "JSONDecodeError: too deeply nested"
  | fuel + 1, cs =>
    match cs with
    | [] => .error "JSONDecodeError: expecting value"
    | 'n' :: 'u' :: 'l' :: 'l' :: r => .ok (.null, r)
    | 't' :: 'r' :: 'u' :: 'e' :: r => .ok (.bool true, r)
    | 'f' :: 'a' :: 'l' :: 's' :: 'e' :: r => .ok (.bool false, r)
    | '"' :: r =>
      match parseStr r [] with
      | .ok (s, r') => .ok (.str s, r')
      | .error e => .error e
    | '[' :: r =>
      match skipWs r with
      | ']' :: r' => .ok (.arr [], r')
      | r' => parseArr fuel r' []
    | '\x7b' :: r =>
      match skipWs r with
      | '\x7d' :: r' => .ok (.obj [], r')
      | r' => parseObj fuel r' []
    | c :: r =>
      match parseNum (c :: r) with
      | .ok (q, r') => .ok (.num q, r')
      | .error e => .error e

/-- Parse the elements of a non-empty JSON array (after `[`). -/
def parseArr : Nat → List Char → List Json → Except String (Json × List Char)
  | 0, _, _ => .error "JSONDecodeError: too deeply nested"
  | fuel + 1, cs, acc =>
    match parseVal fuel cs with
    | .error e => .error e
    | .ok (v, cs1) =>
      match skipWs cs1 with
      | ',' :: r => parseArr fuel (skipWs r) (v :: acc)
      | ']' :: r => .ok (.arr (v :: acc).reverse, r)
      | _ => .error "JSONDecodeError: expecting comma delimiter"

/-- Parse the entries of a non-empty JSON object (after the opening brace). -/
def parseObj : Nat → List Char → List (String × Json) →
    Except String (Json × List Char)
  | 0, _, _ => .error "JSONDecodeError: too deeply nested"
  | fuel + 1, cs, acc =>
    match cs with
    | '"' :: r =>
      match parseStr r [] with
      | .error e => .error e
      | .ok (k, cs1) =>
        match skipWs cs1 with
        | ':' :: r2 =>
          match parseVal fuel (skipWs r2) with
          | .error e => .error e
          | .ok (v, cs3) =>
            match skipWs cs3 with
            | ',' :: r3 => parseObj fuel (skipWs r3) ((k, v) :: acc)
            | '\x7d' :: r3 => .ok (.obj (objFinish ((k, v) :: acc).reverse), r3)
            | _ => .error "JSONDecodeError: expecting comma delimiter"
        | _ => .error "JSONDecodeError: expecting colon delimiter"
    | _ => .error "JSONDecodeError: expecting property name"

end

/-- Model of Python `json.loads(s)`: parse one value surrounded by optional
whitespace; anything left over is an error (`Extra data`). -/
def json_loads (s : String) : Except String Json :=
  match parseVal (s.length + 1) (skipWs s.data) with
  | .ok (v, rest) => if skipWs rest = [] then .ok v else .error "JSONDecodeError: Extra data"
  | .error e => .error e

/-! ### Normalized event model (`anymail.signals`)

`EventType`, `RejectReason`, `AnymailTrackingEvent` live in
`anymail/signals.py`, which is not under `src/`; they are plain enumerations
and a keyword-argument record.  Modelled from the spec: "event type
(enumerated: delivered, rejected, bounced, complained, unsubscribed, opened,
clicked, unknown)" plus the tracking-event field list of §3, and the reject
reasons named in §4.2/§8 (bounced, timed-out, spam, other). -/

inductive EventType where
  | delivered | rejected | bounced | complained | unsubscribed
  | opened | clicked | unknown | inbound
  deriving DecidableEq, Repr

inductive RejectReason where
  | bounced | timed_out | spam | other
  deriving DecidableEq, Repr

/-- The normalized tracking event record, with the fields the source
assembles (lines 127-141).  Timestamps are UTC epoch seconds. -/
structure AnymailTrackingEvent where
  event_type : EventType
  timestamp : Int
  message_id : Option String
  event_id : Option String
  recipient : Option String
  reject_reason : Option RejectReason
  description : Option String
  mta_response : Option String
  tags : List String
  metadata : List (String × Json)
  click_url : Option String
  user_agent : Option String
  esp_event : QueryDict

/-- `esp_event['k']` on a required field: `MultiValueDictKeyError` when
absent. -/
def require (q : QueryDict) (k : String) : Except String String :=
  match qget? q k with
  | some v => .ok v
  | none => .error ("MultiValueDictKeyError: " ++ k)

/-- Python sequence unpacking `[field, value] = elem` for a decoded JSON
element: a two-element array unpacks; a two-character string or a
two-entry object (iterating a dict yields its keys) also unpack;
everything else raises. -/
def unpack2 : Json → Except String (Json × Json)
  | .arr [a, b] => .ok (a, b)
  | .arr _ => .error "ValueError: unpack"
  | .str s =>
    match s.data with
    | [a, b] => .ok (.str (String.mk [a]), .str (String.mk [b]))
    | _ => .error "ValueError: unpack"
  | .obj [(k1, _), (k2, _)] => .ok (.str k1, .str k2)
  | .obj _ => .error "ValueError: unpack"
  | _ => .error "TypeError: cannot unpack non-iterable"

/-- `for [field, value] in headers` over a decoded JSON header-list value:
iterate and unpack each element. -/
def jsonPairs : Json → Except String (List (Json × Json))
  | .arr xs => xs.mapM unpack2
  | .str s => if s = "" then .ok [] else (s.data.map (fun c => Json.str (String.mk [c]))).mapM unpack2
  | .obj kvs => (kvs.map (fun kv => Json.str kv.1)).mapM unpack2
  | _ => .error "TypeError: not iterable"

namespace MailgunTrackingWebhookView

/-- The `event_types` mapping (source lines 48-58) applied with
`.get(event, EventType.UNKNOWN)`. -/
def event_types (s : String) : EventType :=
  if s = "delivered" then .delivered
  else if s = "dropped" then .rejected
  else if s = "bounced" then .bounced
  else if s = "complained" then .complained
  else if s = "unsubscribed" then .unsubscribed
  else if s = "opened" then .opened
  else if s = "clicked" then .clicked
  else .unknown

/-- The `reject_reasons` exception table (source lines 60-69). -/
def reject_reasons (n : Int) : Option RejectReason :=
  if n = 499 then some .timed_out
  else if n = 605 then some .bounced
  else if n = 607 then some .spam
  else none

/-- Reject-reason resolution (source lines 88-106) as a function of the
optional `code` field value.

* `code` absent → `KeyError` caught → no reject reason.
* `code` parses as an integer → exception-table lookup with the
  "400-599 → bounced, else other" default.
* otherwise (`ValueError` from `int()`) → RFC-3463 branch: the class is
  `code.split('.')[0]`.  The source's inner `except (TypeError, IndexError)`
  is unreachable here: a `QueryDict` value is a `str`, and `str.split`
  always returns a non-empty list, so the status-class rule always applies. -/
def resolve_reject_reason (code? : Option String) : Option RejectReason :=
  match code? with
  | none => none
  | some s =>
    match pyInt? s with
    | some mta_status =>
      some ((reject_reasons mta_status).getD
        (if 400 ≤ mta_status ∧ mta_status < 600 then .bounced else .other))
    | none =>
      let status_class := firstDotSegment s
      some (if status_class = "4" ∨ status_class = "5" then .bounced else .other)

/-- Modelled from the spec: `combine` (from `anymail.utils`, not under
`src/`) "shallow-merge[s] all parsed dictionaries into one metadata mapping
(later entries override earlier keys on conflict)". -/
def combine (ds : List (List (String × Json))) : List (String × Json) :=
  ds.foldl (fun m d => d.foldl (fun m kv => objInsert m kv.1 kv.2) m) []

/-- `json.loads(value)` for one `X-Mailgun-Variables` value, which `combine`
then treats as a dict: a non-`str` value raises `TypeError` in `json.loads`,
and a decoded non-object raises inside `combine` (modelled from the spec:
the merge is over dictionaries). -/
def loadVariable (v : Json) : Except String (List (String × Json)) :=
  match v with
  | .str vs =>
    match json_loads vs with
    | .ok (.obj kvs) => .ok kvs
    | .ok _ => .error "TypeError: combine expects mappings"
    | .error e => .error e
  | _ => .error "TypeError: the JSON object must be str"

/-- Metadata extraction (source lines 111-122).  Only `KeyError` (absent
`message-headers` field) is caught; a decode error in `json.loads`
propagates. -/
def track_metadata (q : QueryDict) : Except String (List (String × Json)) :=
  match qget? q "message-headers" with
  | none => .ok []
  | some s =>
    match json_loads s with
    | .error e => .error e
    | .ok hj =>
      match jsonPairs hj with
      | .error e => .error e
      | .ok pairs =>
        let varValues := (pairs.filter
          (fun fv => fv.1.isStrEq "X-Mailgun-Variables")).map (fun fv => fv.2)
        if 1 ≤ varValues.length then
          match varValues.mapM loadVariable with
          | .error e => .error e
          | .ok dicts => .ok (combine dicts)
        else
          .ok []

/-- Message-id normalization (source lines 83-84): wrap in angle brackets
unless the id is empty (falsy) or already starts with `'<'`. -/
def normalize_message_id (s : String) : String :=
  if s ≠ "" ∧ ¬ pyStartsWith s '<' then "<" ++ s ++ ">" else s

/-- The optional-id form of the same normalization. -/
def norm_message_id? : Option String → Option String
  | none => none
  | some s => some (normalize_message_id s)

/-- `MailgunTrackingWebhookView.esp_to_anymail_event` (source lines 74-141).
Errors (`Except.error`) model uncaught Python exceptions propagating out of
the mapper: a missing `event` or `timestamp` field, an unparseable
`timestamp`, or a failure in the metadata step. -/
def esp_to_anymail_event (esp_event : QueryDict) :
    Except String AnymailTrackingEvent :=
  match require esp_event "event", require esp_event "timestamp" with
  | .error e, _ => .error e
  | _, .error e => .error e
  | .ok eventStr, .ok tsStr =>
  match pyInt? tsStr with
  | none => .error "ValueError: invalid literal for int"
  | some ts =>
  match track_metadata esp_event with
  | .error e => .error e
  | .ok metadata =>
  Except.ok {
    event_type := event_types eventStr
    timestamp := ts
    message_id := norm_message_id?
      ((qget? esp_event "Message-Id").orElse (fun _ => qget? esp_event "message-id"))
    event_id := qget? esp_event "token"
    recipient := qget? esp_event "recipient"
    reject_reason := resolve_reject_reason (qget? esp_event "code")
    description := qget? esp_event "description"
    mta_response := (qget? esp_event "error").orElse
      (fun _ => qget? esp_event "notification")
    tags := qgetlist esp_event "tag" (qgetlist esp_event "X-Mailgun-Tag" [])
    metadata := metadata
    click_url := qget? esp_event "url"
    user_agent := qget? esp_event "user-agent"
    esp_event := esp_event }

end MailgunTrackingWebhookView

/-! ### Inbound model (`anymail.inbound`)

`AnymailInboundMessage` is defined in `anymail/inbound.py`, which is not
under `src/`.  Modelled from the spec: "Message entity: header mapping,
plain-text body, HTML body, list of attachments (each with content,
filename, content-id), envelope sender/recipient, stripped reply text/HTML,
spam-detected flag, optional spam score."  Uploaded files
(`request.FILES`) form a second multi-valued mapping, from field name to a
file with a name and binary content. -/

structure UploadedFile where
  name : String
  content : List Nat
  deriving DecidableEq, Repr

abbrev Files := List (String × UploadedFile)

/-- `request.FILES[k]`: the last file uploaded under field `k`
(Django `MultiValueDict.__getitem__`). -/
def filesGet? (files : Files) (k : String) : Option UploadedFile :=
  ((files.filter (fun kv => kv.1 = k)).map (fun kv => kv.2)).getLast?

structure Attachment where
  filename : String
  content : List Nat
  content_id : Option String
  deriving DecidableEq, Repr

/-- Modelled from the spec: the Message entity of §3 (an
`email.message.Message` subclass in `anymail/inbound.py`). -/
structure AnymailInboundMessage where
  headers : List (String × String)
  text : Option String
  html : Option String
  attachments : Option (List Attachment)
  envelope_sender : Option String
  envelope_recipient : Option String
  stripped_text : Option String
  stripped_html : Option String
  spam_detected : Bool
  spam_score : Option ℚ

/-- `message[name]` / `message.get(name)`: `email.message.Message` header
access is case-insensitive and returns the first matching header, or
`None`. -/
def getHeader (m : AnymailInboundMessage) (name : String) : Option String :=
  ((m.headers.filter (fun kv => kv.1.toLower = name.toLower)).map
    (fun kv => kv.2)).head?

/-- Modelled from the spec: `AnymailInboundMessage.construct` builds a
message from a header list, the two bodies, and the attachment list
(`None` meaning no attachment fields were posted); the remaining Message
fields start unset. -/
def construct (headers : List (String × String)) (text html : Option String)
    (attachments : Option (List Attachment)) : AnymailInboundMessage :=
  { headers := headers
    text := text
    html := html
    attachments := attachments
    envelope_sender := none
    envelope_recipient := none
    stripped_text := none
    stripped_html := none
    spam_detected := false
    spam_score := none }

/-- Decode the JSON `message-headers` value into the header list passed to
`construct`: each element must unpack to a `[name, value]` pair of strings
(modelled from the spec: "reconstruct headers from a JSON-encoded
header-list field"). -/
def headersOfJson (j : Json) : Except String (List (String × String)) := do
  let pairs ← jsonPairs j
  pairs.mapM (fun fv =>
    match fv with
    | (.str f, .str v) => Except.ok (f, v)
    | _ => Except.error "TypeError: header names and values must be strings")

namespace MailgunInboundWebhookView

/-- Modelled from the spec:
`AnymailInboundMessage.construct_attachment_from_uploaded_file` (in
`anymail/inbound.py`, not under `src/`) pairs the uploaded file's content
and name with the given content-id. -/
def construct_attachment_from_uploaded_file (f : UploadedFile)
    (content_id : Option String) : Attachment :=
  { filename := f.name, content := f.content, content_id := content_id }

/-- The dict comprehension inverting `content-id-map` (source lines
192-195): entries `cid ↦ att_id` become `att_id ↦ cid`.  An unhashable
JSON value (array/object) cannot be a dict key and raises. -/
def invert_cid_map (entries : List (String × Json)) :
    Except String (List (Json × String)) :=
  entries.mapM (fun kv =>
    match kv.2 with
    | .arr _ => Except.error "TypeError: unhashable type"
    | .obj _ => Except.error "TypeError: unhashable type"
    | v => Except.ok (v, kv.1))

/-- `att_cids.get(att_id)`: dict lookup in the inverted map — the last
entry with key equal to the string `att_id` wins (later duplicate keys of a
dict comprehension overwrite earlier ones). -/
def cid_lookup (inv : List (Json × String)) (att_id : String) : Option String :=
  ((inv.filter (fun p => p.1.isStrEq att_id)).map (fun p => p.2)).getLast?

/-- One step of the attachment list comprehension (source lines 196-200):
`request.FILES[att_id]` with the content-id recovered from the inverted
map. -/
def load_attachment (files : Files) (att_cids : List (Json × String))
    (att_id : String) : Except String Attachment :=
  match filesGet? files att_id with
  | some f => Except.ok
      (construct_attachment_from_uploaded_file f (cid_lookup att_cids att_id))
  | none => Except.error ("MultiValueDictKeyError: " ++ att_id)

/-- The `attachment-count` branch of `message_from_mailgun_parsed` (source
lines 185-200): `None` when the field is absent, otherwise the list built
from the 1-based `attachment-<i>` file fields. -/
def parsed_attachments (post : QueryDict) (files : Files) :
    Except String (Option (List Attachment)) :=
  match qget? post "attachment-count" with
  | none => .ok none
  | some s =>
    match pyInt? s with
    | none => .error "ValueError: invalid literal for int"
    | some attachment_count =>
      match json_loads ((qget? post "content-id-map").getD "\x7b\x7d") with
      | .error e => .error e
      | .ok (.obj cidEntries) =>
        match invert_cid_map cidEntries with
        | .error e => .error e
        | .ok att_cids =>
          match ((List.range attachment_count.toNat).map
              (fun i => "attachment-" ++ toString (i + 1))).mapM
              (load_attachment files att_cids) with
          | .error e => .error e
          | .ok atts => .ok (some atts)
      | .ok _ => .error "AttributeError: items"

/-- `MailgunInboundWebhookView.message_from_mailgun_parsed` (source lines
182-207).  The `except (KeyError, TypeError)` around
`int(request.POST['attachment-count'])` catches only the absent-field case
(`TypeError` cannot occur for a `str` value); a `ValueError` from `int()`
propagates, as do JSON decode errors from `content-id-map` and
`message-headers` and a missing uploaded file field. -/
def message_from_mailgun_parsed (post : QueryDict) (files : Files) :
    Except String AnymailInboundMessage :=
  match parsed_attachments post files with
  | .error e => .error e
  | .ok attachments? =>
  match require post "message-headers" with
  | .error e => .error e
  | .ok hdrsStr =>
  match json_loads hdrsStr with
  | .error e => .error e
  | .ok hdrsJson =>
  match headersOfJson hdrsJson with
  | .error e => .error e
  | .ok headers =>
  Except.ok (construct headers (qget? post "body-plain") (qget? post "body-html")
    attachments?)

/-- The unconditional field assignments after construction (source lines
163-172), shared by the raw-MIME and fully-parsed branches.  The spam-score
`try` swallows `TypeError` (header absent, `float(None)`) and `ValueError`
(non-numeric header), leaving the score as it was. -/
def apply_request_fields (message : AnymailInboundMessage) (post : QueryDict) :
    AnymailInboundMessage :=
  { message with
    envelope_sender := qget? post "sender"
    envelope_recipient := qget? post "recipient"
    stripped_text := qget? post "stripped-text"
    stripped_html := qget? post "stripped-html"
    spam_detected := ((getHeader message "X-Mailgun-Sflag").getD "No").toLower = "yes"
    spam_score :=
      match (getHeader message "X-Mailgun-Sscore").bind pyFloat? with
      | some r => some r
      | none => message.spam_score }

/-- The normalized inbound event record (source lines 174-180). -/
structure AnymailInboundEvent where
  event_type : EventType
  timestamp : Int
  event_id : Option String
  message : AnymailInboundMessage
  esp_event_post : QueryDict
  esp_event_files : Files

/-- `MailgunInboundWebhookView.esp_to_anymail_event` (source lines 152-180)
restricted to the fully-parsed branch (no `body-mime` field in `POST`).
The raw-MIME branch calls `AnymailInboundMessage.parse_raw_mime`
(`anymail/inbound.py`, not under `src/`) and is not modelled here. -/
def esp_to_anymail_event_parsed (post : QueryDict) (files : Files) :
    Except String AnymailInboundEvent :=
  match message_from_mailgun_parsed post files with
  | .error e => .error e
  | .ok message0 =>
  let message := apply_request_fields message0 post
  match require post "timestamp" with
  | .error e => .error e
  | .ok tsStr =>
  match pyInt? tsStr with
  | none => .error "ValueError: invalid literal for int"
  | some ts =>
  Except.ok {
    event_type := EventType.inbound
    timestamp := ts
    event_id := qget? post "token"
    message := message
    esp_event_post := post
    esp_event_files := files }

end MailgunInboundWebhookView

/-! ### HMAC-SHA256 (`hmac` / `hashlib`)

Executable model of `hmac.new(key, msg, hashlib.sha256).hexdigest()` used by
`validate_request`.  Bytes are `Nat`s below 256; 32-bit words are `Nat`s
reduced with `% 2^32` wherever overflow matters. -/

def w32 (n : Nat) : Nat := n % 4294967296

/-- Right rotation of a 32-bit word. -/
def rotr32 (n x : Nat) : Nat := w32 ((x >>> n) ||| (x <<< (32 - n)))

def smallSigma0 (x : Nat) : Nat := rotr32 7 x ^^^ rotr32 18 x ^^^ (x >>> 3)

def smallSigma1 (x : Nat) : Nat := rotr32 17 x ^^^ rotr32 19 x ^^^ (x >>> 10)

def bigSigma0 (x : Nat) : Nat := rotr32 2 x ^^^ rotr32 13 x ^^^ rotr32 22 x

def bigSigma1 (x : Nat) : Nat := rotr32 6 x ^^^ rotr32 11 x ^^^ rotr32 25 x

/-- SHA-256 round constants (fractional parts of the cube roots of the
first 64 primes). -/
def sha256K : List Nat :=
  [1116352408, 1899447441, 3049323471, 3921009573, 961987163, 1508970993,
   2453635748, 2870763221, 3624381080, 310598401, 607225278, 1426881987,
   1925078388, 2162078206, 2614888103, 3248222580, 3835390401, 4022224774,
   264347078, 604807628, 770255983, 1249150122, 1555081692, 1996064986,
   2554220882, 2821834349, 2952996808, 3210313671, 3336571891, 3584528711,
   113926993, 338241895, 666307205, 773529912, 1294757372, 1396182291,
   1695183700, 1986661051, 2177026350, 2456956037, 2730485921, 2820302411,
   3259730800, 3345764771, 3516065817, 3600352804, 4094571909, 275423344,
   430227734, 506948616, 659060556, 883997877, 958139571, 1322822218,
   1537002063, 1747873779, 1955562222, 2024104815, 2227730452, 2361852424,
   2428436474, 2756734187, 3204031479, 3329325298]

/-- SHA-256 initial hash state. -/
def sha256H0 : List Nat :=
  [1779033703, 3144134277, 1013904242, 2773480762,
   1359893119, 2600822924, 528734635, 1541459225]

/-- Big-endian bytes to 32-bit words (input length a multiple of 4). -/
def toWordsBE : List Nat → List Nat
  | b0 :: b1 :: b2 :: b3 :: rest =>
    (((b0 * 256 + b1) * 256 + b2) * 256 + b3) :: toWordsBE rest
  | _ => []

/-- 32-bit words to big-endian bytes. -/
def wordsToBytesBE (ws : List Nat) : List Nat :=
  (ws.map (fun w => [(w >>> 24) % 256, (w >>> 16) % 256, (w >>> 8) % 256, w % 256])).flatten

/-- Extend the 16 words of one block to the 64-entry message schedule. -/
def extendW (w16 : List Nat) : List Nat :=
  (List.range 48).foldl
    (fun w _ =>
      let t := w.length
      w ++ [w32 (smallSigma1 (w.getD (t - 2) 0) + w.getD (t - 7) 0 +
                 smallSigma0 (w.getD (t - 15) 0) + w.getD (t - 16) 0)])
    w16

/-- One round of the SHA-256 compression function. -/
def compressStep (st : List Nat) (kw : Nat × Nat) : List Nat :=
  match st with
  | [a, b, c, d, e, f, g, h] =>
    let ch := (e &&& f) ^^^ ((4294967295 - e) &&& g)
    let t1 := w32 (h + bigSigma1 e + ch + kw.1 + kw.2)
    let maj := (a &&& b) ^^^ (a &&& c) ^^^ (b &&& c)
    let t2 := w32 (bigSigma0 a + maj)
    [w32 (t1 + t2), a, b, c, w32 (d + t1), e, f, g]
  | _ => st

/-- Compress one 64-byte block into the running hash state. -/
def sha256Compress (h : List Nat) (block : List Nat) : List Nat :=
  let st := (List.zip sha256K (extendW (toWordsBE block))).foldl compressStep h
  List.zipWith (fun x y => w32 (x + y)) h st

/-- Split into 64-byte chunks (`fuel` ≥ the number of chunks). -/
def chunks64 : Nat → List Nat → List (List Nat)
  | 0, _ => []
  | _, [] => []
  | fuel + 1, l => l.take 64 :: chunks64 fuel (l.drop 64)

/-- SHA-256 of a byte string, as the 8-word final state. -/
def sha256Words (msg : List Nat) : List Nat :=
  let len := msg.length
  let zeros := (119 - len % 64) % 64
  let lenBits := 8 * len
  let lenBytes := ((List.range 8).reverse).map (fun k => (lenBits >>> (8 * k)) % 256)
  let padded := msg ++ [128] ++ List.replicate zeros 0 ++ lenBytes
  (chunks64 (len + 1) padded).foldl sha256Compress sha256H0

/-- `hashlib.sha256(msg).digest()`: the 32 digest bytes. -/
def sha256Bytes (msg : List Nat) : List Nat := wordsToBytesBE (sha256Words msg)

def hexChar (n : Nat) : Char :=
  if n < 10 then Char.ofNat (48 + n) else Char.ofNat (87 + n)

/-- Lowercase hex rendering of a byte string (`.hexdigest()`). -/
def bytesToHex (bs : List Nat) : String :=
  String.mk ((bs.map (fun b => [hexChar (b / 16), hexChar (b % 16)])).flatten)

/-- `hmac.new(key, msg, hashlib.sha256).digest()` (RFC 2104, block size
64). -/
def hmac_sha256 (key msg : List Nat) : List Nat :=
  let key := if 64 < key.length then sha256Bytes key else key
  let key := key ++ List.replicate (64 - key.length) 0
  let ipadded := key.map (fun b => b ^^^ 54)
  let opadded := key.map (fun b => b ^^^ 92)
  sha256Bytes (opadded ++ sha256Bytes (ipadded ++ msg))

/-- `hmac.new(key, msg, hashlib.sha256).hexdigest()`. -/
def hmac_sha256_hexdigest (key msg : List Nat) : String :=
  bytesToHex (hmac_sha256 key msg)

/-! ### Signature validation (`MailgunBaseWebhookView.validate_request`) -/

/-- `s.encode('ascii')` succeeds iff every character is ASCII. -/
def asciiStr (s : String) : Bool := s.data.all (fun c => c.toNat < 128)

/-- The byte string produced by `s.encode('ascii')` (meaningful when
`asciiStr s`). -/
def encodeAscii (s : String) : List Nat := s.data.map Char.toNat

/-- `django.utils.crypto.constant_time_compare(a, b)`: timing-independent
equality of the encodings of the two strings, i.e. string equality (the
timing behaviour is not representable in this embedding). -/
def constant_time_compare (a b : String) : Bool := a = b

namespace MailgunBaseWebhookView

/-- `MailgunBaseWebhookView.validate_request` (source lines 29-40), given
the view's `api_key` bytes (`settings` key already encoded by `__init__`).
The upstream `super().validate_request` basic-auth check is an external
collaborator (spec §4.1) disabled by default and out of scope.  Errors are
the two `AnymailWebhookValidationFailure` messages, plus the
`UnicodeEncodeError` that `'{}{}'.format(timestamp, token).encode('ascii')`
raises on non-ASCII field values (which is not a validation failure). -/
def validate_request (api_key : List Nat) (post : QueryDict) :
    Except String Unit :=
  match qget? post "token", qget? post "timestamp", qget? post "signature" with
  | some token, some timestamp, some signature =>
    if ¬ asciiStr (timestamp ++ token) then
      Except.error "UnicodeEncodeError"
    else
      let expected_signature :=
        hmac_sha256_hexdigest api_key (encodeAscii (timestamp ++ token))
      if constant_time_compare signature expected_signature then Except.ok ()
      else Except.error "Mailgun webhook called with incorrect signature"
  | _, _, _ =>
    Except.error "Mailgun webhook called without required security fields"

end MailgunBaseWebhookView

/-! ## Verification -/

open MailgunTrackingWebhookView MailgunInboundWebhookView MailgunBaseWebhookView

/-- Helper: how each field of a successfully produced tracking event is
computed from the payload (shared by several claims below). -/
theorem track_ok_fields (q : QueryDict) (ev : AnymailTrackingEvent)
    (h : esp_to_anymail_event q = .ok ev) :
    ev.message_id = norm_message_id?
      ((qget? q "Message-Id").orElse (fun _ => qget? q "message-id"))
    ∧ ev.reject_reason = resolve_reject_reason (qget? q "code")
    ∧ track_metadata q = .ok ev.metadata := by
  unfold esp_to_anymail_event at h
  split at h
  · exact absurd h (by simp)
  · exact absurd h (by simp)
  · split at h
    · exact absurd h (by simp)
    · split at h
      · exact absurd h (by simp)
      · rename_i metadata hmeta
        cases h
        exact ⟨rfl, rfl, hmeta⟩

/-- C5: message-identifier normalization is idempotent, and an
already-bracketed identifier (one starting with `'<'`) is returned
unchanged. -/
theorem normalize_message_id_idempotent (s : String) :
    normalize_message_id (normalize_message_id s) = normalize_message_id s
    ∧ (pyStartsWith s '<' = true → normalize_message_id s = s) := by
  have hwrap : ∀ t : String, pyStartsWith ("<" ++ t ++ ">") '<' = true := by
    intro t
    simp [pyStartsWith, String.data_append]
  constructor
  · unfold normalize_message_id
    by_cases h1 : s = ""
    · simp [h1]
    · by_cases h2 : pyStartsWith s '<'
      · simp [h1, h2]
      · simp only [h1, h2, Bool.false_eq_true, not_false_eq_true, and_self, if_true,
          ne_eq, Bool.not_eq_true]
        simp [hwrap s]
  · intro h2
    unfold normalize_message_id
    simp [h2]

/-- Witness for C5 at a concrete identifier. -/
theorem normalize_message_id_idempotent_witness :
    normalize_message_id (normalize_message_id "abc") = normalize_message_id "abc"
    ∧ (pyStartsWith "<xyz>" '<' = true → normalize_message_id "<xyz>" = "<xyz>")
    ∧ normalize_message_id "<xyz>" = "<xyz>" :=
  ⟨(normalize_message_id_idempotent "abc").1,
   (normalize_message_id_idempotent "<xyz>").2,
   (normalize_message_id_idempotent "<xyz>").2 (by decide)⟩

/-- C10: a tracking payload with neither `Message-Id` nor `message-id`
yields an event whose `message_id` is unset (`None`). -/
theorem missing_message_id_unset (q : QueryDict) (ev : AnymailTrackingEvent)
    (h : esp_to_anymail_event q = .ok ev)
    (h1 : qget? q "Message-Id" = none) (h2 : qget? q "message-id" = none) :
    ev.message_id = none := by
  have hm := (track_ok_fields q ev h).1
  rw [hm, h1, h2]
  rfl

def q10w : QueryDict := [("event", "delivered"), ("timestamp", "0")]

/-- Witness for C10 at a concrete payload. -/
theorem missing_message_id_unset_witness :
    (esp_to_anymail_event q10w).map AnymailTrackingEvent.message_id = .ok none := by
  obtain ⟨ev, hev⟩ : ∃ ev, esp_to_anymail_event q10w = .ok ev := ⟨_, rfl⟩
  rw [hev]
  exact congrArg Except.ok (missing_message_id_unset q10w ev hev rfl rfl)

theorem pyStartsWith_wrap (t : String) : pyStartsWith ("<" ++ t ++ ">") '<' = true := by
  simp [pyStartsWith, String.data_append]

theorem pyEndsWith_wrap (t : String) : pyEndsWith ("<" ++ t ++ ">") '>' = true := by
  have h : ('<' :: (t.data ++ ['>'])).getLast? = some '>' := by
    rw [show '<' :: (t.data ++ ['>']) = ('<' :: t.data) ++ ['>'] from rfl]
    rw [List.getLast?_concat]
  simp [pyEndsWith, String.data_append, h]

def q6cex : QueryDict :=
  [("event", "delivered"), ("timestamp", "0"), ("Message-Id", "<abc")]

/-- C6 counterexample: a supplied identifier that starts with `'<'` but does
not end with `'>'` is passed through unchanged, so the resulting
`message_id` is not angle-bracket-delimited. -/
theorem message_id_bracket_counterexample :
    (esp_to_anymail_event q6cex).map AnymailTrackingEvent.message_id
      = .ok (some "<abc")
    ∧ pyEndsWith "<abc" '>' = false :=
  ⟨rfl, rfl⟩

/-- C6 amended: for every tracking payload supplying a non-empty message
identifier, the resulting `message_id` begins with `'<'`; and whenever the
supplied identifier did not already begin with `'<'`, the result also ends
with `'>'` (an identifier already starting with `'<'` is passed through
unchanged, even when it lacks the closing bracket). -/
theorem message_id_bracket_amended (q : QueryDict) (ev : AnymailTrackingEvent)
    (s : String) (h : esp_to_anymail_event q = .ok ev)
    (hs : (qget? q "Message-Id").orElse (fun _ => qget? q "message-id") = some s)
    (hne : s ≠ "") :
    ev.message_id = some (normalize_message_id s)
    ∧ pyStartsWith (normalize_message_id s) '<' = true
    ∧ (pyStartsWith s '<' = false →
        pyEndsWith (normalize_message_id s) '>' = true) := by
  have hm := (track_ok_fields q ev h).1
  rw [hs] at hm
  refine ⟨hm, ?_, ?_⟩
  · unfold normalize_message_id
    by_cases h2 : pyStartsWith s '<'
    · simp [h2]
    · simp only [hne, h2, Bool.false_eq_true, not_false_eq_true, and_self, if_true,
        ne_eq, Bool.not_eq_true]
      exact pyStartsWith_wrap s
  · intro h2
    unfold normalize_message_id
    simp only [hne, h2, Bool.false_eq_true, not_false_eq_true, and_self, if_true,
      ne_eq, Bool.not_eq_true]
    exact pyEndsWith_wrap s

def q6w : QueryDict :=
  [("event", "delivered"), ("timestamp", "0"), ("message-id", "abc")]

/-- Witness for the amended C6 at a concrete payload. -/
theorem message_id_bracket_amended_witness :
    (esp_to_anymail_event q6w).map AnymailTrackingEvent.message_id
      = .ok (some "<abc>")
    ∧ pyStartsWith "<abc>" '<' = true ∧ pyEndsWith "<abc>" '>' = true := by
  obtain ⟨ev, hev⟩ : ∃ ev, esp_to_anymail_event q6w = .ok ev := ⟨_, rfl⟩
  obtain ⟨h1, h2, h3⟩ := message_id_bracket_amended q6w ev "abc" hev rfl (by decide)
  refine ⟨?_, h2, h3 rfl⟩
  rw [hev]
  exact congrArg Except.ok h1

/-- The `some` equation of `resolve_reject_reason`, for rewriting. -/
theorem resolve_reject_reason_some (s : String) :
    resolve_reject_reason (some s) =
      match pyInt? s with
      | some n => some ((reject_reasons n).getD
          (if 400 ≤ n ∧ n < 600 then RejectReason.bounced else RejectReason.other))
      | none => some (if firstDotSegment s = "4" ∨ firstDotSegment s = "5"
          then RejectReason.bounced else RejectReason.other) := rfl

/-- C2: the reject-reason table.  For a payload whose `code` field is
present: an integer code is looked up in the exception table
(499 → timed-out, 605 → bounced, 607 → spam) with default
"400-599 → bounced, else other"; a non-integer code is classified by its
first dot-segment ("4"/"5" → bounced, else other). -/
theorem reject_reason_table (q : QueryDict) (ev : AnymailTrackingEvent)
    (s : String) (h : esp_to_anymail_event q = .ok ev)
    (hc : qget? q "code" = some s) :
    (∀ n : Int, pyInt? s = some n →
        ev.reject_reason = some (
          if n = 499 then RejectReason.timed_out
          else if n = 605 then RejectReason.bounced
          else if n = 607 then RejectReason.spam
          else if 400 ≤ n ∧ n < 600 then RejectReason.bounced
          else RejectReason.other))
    ∧ (pyInt? s = none →
        ev.reject_reason = some (
          if firstDotSegment s = "4" ∨ firstDotSegment s = "5"
          then RejectReason.bounced else RejectReason.other)) := by
  have hr := (track_ok_fields q ev h).2.1
  rw [hc, resolve_reject_reason_some] at hr
  constructor
  · intro n hn
    simp only [hn] at hr
    rw [hr]
    unfold reject_reasons
    by_cases h1 : n = 499
    · simp [h1]
    · by_cases h2 : n = 605
      · simp [h1, h2]
      · by_cases h3 : n = 607
        · simp [h1, h2, h3]
        · simp [h1, h2, h3]
  · intro hn
    simp only [hn] at hr
    exact hr

def q2w : QueryDict := [("event", "bounced"), ("timestamp", "0"), ("code", "499")]

/-- Witness for C2: code `499` resolves to timed-out. -/
theorem reject_reason_table_witness :
    (esp_to_anymail_event q2w).map AnymailTrackingEvent.reject_reason
      = .ok (some RejectReason.timed_out) := by
  obtain ⟨ev, hev⟩ : ∃ ev, esp_to_anymail_event q2w = .ok ev := ⟨_, rfl⟩
  rw [hev]
  have h := (reject_reason_table q2w ev "499" hev rfl).1 499 rfl
  norm_num at h
  exact congrArg Except.ok h

def q3cex : QueryDict := [("event", "bounced"), ("timestamp", "0"), ("code", "abc")]

/-- C3 counterexample: `code = "abc"` parses neither as an integer nor as a
dotted status code, yet the reject reason is `other`, not unset: the
source's `except (TypeError, IndexError)` fallback is unreachable for
string payload values, so every non-integer code reaches the
status-class rule. -/
theorem unparseable_code_counterexample :
    (esp_to_anymail_event q3cex).map AnymailTrackingEvent.reject_reason
      = .ok (some RejectReason.other)
    ∧ ((Except.ok (some RejectReason.other) : Except String (Option RejectReason))
        ≠ .ok none) :=
  ⟨rfl, fun hcontra => Option.noConfusion (Except.ok.inj hcontra)⟩

/-- C3 amended: the reject reason is unset only when the `code` field is
absent; a present code that does not parse as an integer always yields a
reject reason (bounced for first dot-segment "4"/"5", otherwise other),
never `None`. -/
theorem reject_reason_unparseable_amended (q : QueryDict)
    (ev : AnymailTrackingEvent) (h : esp_to_anymail_event q = .ok ev) :
    (qget? q "code" = none → ev.reject_reason = none)
    ∧ (∀ s, qget? q "code" = some s → pyInt? s = none →
        ev.reject_reason = some (
          if firstDotSegment s = "4" ∨ firstDotSegment s = "5"
          then RejectReason.bounced else RejectReason.other)
        ∧ ev.reject_reason ≠ none) := by
  have hr := (track_ok_fields q ev h).2.1
  constructor
  · intro hc
    rw [hc] at hr
    exact hr
  · intro s hc hn
    rw [hc, resolve_reject_reason_some] at hr
    simp only [hn] at hr
    exact ⟨hr, by rw [hr]; simp⟩

def q3w : QueryDict := [("event", "delivered"), ("timestamp", "0")]

/-- Witness for the amended C3: absent `code` leaves the reject reason
unset. -/
theorem reject_reason_unparseable_amended_witness :
    (esp_to_anymail_event q3w).map AnymailTrackingEvent.reject_reason
      = .ok none := by
  obtain ⟨ev, hev⟩ : ∃ ev, esp_to_anymail_event q3w = .ok ev := ⟨_, rfl⟩
  rw [hev]
  exact congrArg Except.ok ((reject_reason_unparseable_amended q3w ev hev).1 rfl)

def q4cex : QueryDict :=
  [("event", "delivered"), ("timestamp", "0"), ("message-headers", "not json")]

/-- C4 counterexample: a present but malformed `message-headers` value does
not yield empty metadata — the JSON decode error propagates out of the
mapper (the source's `try` catches only `KeyError`). -/
theorem metadata_malformed_counterexample :
    esp_to_anymail_event q4cex = .error "JSONDecodeError: expecting value"
    ∧ qget? q4cex "message-headers" = some "not json" :=
  ⟨rfl, rfl⟩

def q4m1 : QueryDict :=
  [("event", "delivered"), ("timestamp", "0"),
   ("message-headers",
    "[[\"X-Mailgun-Variables\", \"\x7b\\\"a\\\":1\x7d\"], [\"X-Mailgun-Variables\", \"\x7b\\\"b\\\":2\x7d\"]]")]

def q4m2 : QueryDict :=
  [("event", "delivered"), ("timestamp", "0"),
   ("message-headers",
    "[[\"X-Mailgun-Variables\", \"\x7b\\\"a\\\":1,\\\"b\\\":2\x7d\"], [\"X-Mailgun-Variables\", \"\x7b\\\"b\\\":3\x7d\"]]")]

/-- C4 amended: an absent `message-headers` field yields empty metadata and
no error; a present but malformed (non-JSON) value makes the mapper fail
with the decode error rather than yielding empty metadata; a valid JSON
header list yields the shallow merge of all `X-Mailgun-Variables` values,
later entries overriding earlier keys. -/
theorem metadata_merge_amended :
    (∀ q ev, esp_to_anymail_event q = .ok ev →
        qget? q "message-headers" = none → ev.metadata = [])
    ∧ (∀ q s e, qget? q "message-headers" = some s → json_loads s = .error e →
        track_metadata q = .error e ∧ ∀ ev, esp_to_anymail_event q ≠ .ok ev)
    ∧ (esp_to_anymail_event q4m1).map AnymailTrackingEvent.metadata
        = .ok [("a", Json.num 1), ("b", Json.num 2)]
    ∧ (esp_to_anymail_event q4m2).map AnymailTrackingEvent.metadata
        = .ok [("a", Json.num 1), ("b", Json.num 3)] := by
  refine ⟨?_, ?_, by with_unfolding_all rfl, by with_unfolding_all rfl⟩
  · intro q ev h hnone
    have hm := (track_ok_fields q ev h).2.2
    simp only [track_metadata, hnone] at hm
    exact (Except.ok.inj hm).symm
  · intro q s e hs he
    have hmeta : track_metadata q = .error e := by
      simp only [track_metadata, hs, he]
    refine ⟨hmeta, ?_⟩
    intro ev hok
    have hm := (track_ok_fields q ev hok).2.2
    rw [hmeta] at hm
    exact Except.noConfusion hm

def q4w : QueryDict := [("event", "opened"), ("timestamp", "0")]

/-- Witness for the amended C4: a payload without `message-headers` maps
successfully with empty metadata, and a malformed field makes the mapper
fail. -/
theorem metadata_merge_amended_witness :
    (esp_to_anymail_event q4w).map AnymailTrackingEvent.metadata = .ok []
    ∧ track_metadata q4cex = .error "JSONDecodeError: expecting value" := by
  constructor
  · obtain ⟨ev, hev⟩ : ∃ ev, esp_to_anymail_event q4w = .ok ev := ⟨_, rfl⟩
    rw [hev]
    exact congrArg Except.ok (metadata_merge_amended.1 q4w ev hev rfl)
  · exact (metadata_merge_amended.2.1 q4cex "not json"
      "JSONDecodeError: expecting value" rfl rfl).1

/-- Helper: the two-element attachment comprehension in terms of the two
file-field lookups. -/
theorem mapM_load_two (files : Files) (att_cids : List (Json × String)) :
    List.mapM (load_attachment files att_cids) ["attachment-1", "attachment-2"] =
      match filesGet? files "attachment-1", filesGet? files "attachment-2" with
      | some f1, some f2 => .ok
          [construct_attachment_from_uploaded_file f1 (cid_lookup att_cids "attachment-1"),
           construct_attachment_from_uploaded_file f2 (cid_lookup att_cids "attachment-2")]
      | none, _ => .error "MultiValueDictKeyError: attachment-1"
      | some _, none => .error "MultiValueDictKeyError: attachment-2" := by
  simp only [List.mapM_cons, List.mapM_nil]
  unfold load_attachment
  cases filesGet? files "attachment-1" <;> cases filesGet? files "attachment-2" <;> rfl

/-- Helper: what the attachment branch computes when the payload declares
`attachment-count = 2`. -/
theorem parsed_attachments_two (post : QueryDict) (files : Files)
    (hc : qget? post "attachment-count" = some "2") :
    parsed_attachments post files =
      match json_loads ((qget? post "content-id-map").getD "\x7b\x7d") with
      | .error e => .error e
      | .ok (.obj cidEntries) =>
        match invert_cid_map cidEntries with
        | .error e => .error e
        | .ok att_cids =>
          match filesGet? files "attachment-1", filesGet? files "attachment-2" with
          | some f1, some f2 => .ok (some
              [construct_attachment_from_uploaded_file f1 (cid_lookup att_cids "attachment-1"),
               construct_attachment_from_uploaded_file f2 (cid_lookup att_cids "attachment-2")])
          | none, _ => .error "MultiValueDictKeyError: attachment-1"
          | some _, none => .error "MultiValueDictKeyError: attachment-2"
      | .ok _ => .error "AttributeError: items" := by
  unfold parsed_attachments
  simp only [hc]
  simp only [show pyInt? "2" = some 2 from rfl]
  simp only [show ((List.range (Int.toNat 2)).map
    (fun i => "attachment-" ++ toString (i + 1))) = ["attachment-1", "attachment-2"] from rfl]
  cases hcj : json_loads ((qget? post "content-id-map").getD "\x7b\x7d") with
  | error e => rfl
  | ok v =>
    cases v with
    | obj cidEntries =>
      dsimp only
      cases hinv : invert_cid_map cidEntries with
      | error e => rfl
      | ok att_cids =>
        dsimp only
        rw [mapM_load_two]
        cases filesGet? files "attachment-1" <;>
          cases filesGet? files "attachment-2" <;> rfl
    | null => rfl
    | bool b => rfl
    | num q => rfl
    | str s => rfl
    | arr xs => rfl

/-- C7: when the payload declares `attachment-count = 2`, exactly the file
fields `attachment-1` and `attachment-2` are consumed (both must be present,
and the result does not depend on any other file field), and each
attachment's content-id is recovered by inverting the `content-id-map`
(the key of the entry whose value names that field, or unset when no entry
maps to it). -/
theorem attachment_reconstruction (post : QueryDict) (files : Files)
    (m : AnymailInboundMessage)
    (hc : qget? post "attachment-count" = some "2")
    (h : message_from_mailgun_parsed post files = .ok m) :
    (∃ f1 f2 cidEntries att_cids,
        filesGet? files "attachment-1" = some f1
        ∧ filesGet? files "attachment-2" = some f2
        ∧ json_loads ((qget? post "content-id-map").getD "\x7b\x7d")
            = .ok (.obj cidEntries)
        ∧ invert_cid_map cidEntries = .ok att_cids
        ∧ m.attachments = some
            [construct_attachment_from_uploaded_file f1 (cid_lookup att_cids "attachment-1"),
             construct_attachment_from_uploaded_file f2 (cid_lookup att_cids "attachment-2")])
    ∧ (∀ files' : Files,
        filesGet? files' "attachment-1" = filesGet? files "attachment-1" →
        filesGet? files' "attachment-2" = filesGet? files "attachment-2" →
        message_from_mailgun_parsed post files' = .ok m) := by
  have hpa : parsed_attachments post files = .ok m.attachments := by
    unfold message_from_mailgun_parsed at h
    split at h
    · exact absurd h (by simp)
    · rename_i atts hpaeq
      split at h
      · exact absurd h (by simp)
      · split at h
        · exact absurd h (by simp)
        · split at h
          · exact absurd h (by simp)
          · injection h with h'
            rw [← h']
            exact hpaeq
  constructor
  · have hpa2 := hpa
    rw [parsed_attachments_two post files hc] at hpa2
    cases hcj : json_loads ((qget? post "content-id-map").getD "\x7b\x7d") with
    | error e => rw [hcj] at hpa2; exact absurd hpa2 (by simp)
    | ok v =>
      rw [hcj] at hpa2
      cases v with
      | obj cidEntries =>
        dsimp only at hpa2
        cases hinv : invert_cid_map cidEntries with
        | error e => rw [hinv] at hpa2; exact absurd hpa2 (by simp)
        | ok att_cids =>
          rw [hinv] at hpa2
          dsimp only at hpa2
          cases hf1 : filesGet? files "attachment-1" with
          | none =>
            rw [hf1] at hpa2
            exact absurd hpa2 (by simp)
          | some f1 =>
            cases hf2 : filesGet? files "attachment-2" with
            | none =>
              rw [hf1, hf2] at hpa2
              exact absurd hpa2 (by simp)
            | some f2 =>
              rw [hf1, hf2] at hpa2
              dsimp only at hpa2
              refine ⟨f1, f2, cidEntries, att_cids, rfl, rfl, rfl, hinv, ?_⟩
              exact (Except.ok.inj hpa2).symm
      | null => dsimp only at hpa2; exact absurd hpa2 (by simp)
      | bool b => dsimp only at hpa2; exact absurd hpa2 (by simp)
      | num q => dsimp only at hpa2; exact absurd hpa2 (by simp)
      | str s => dsimp only at hpa2; exact absurd hpa2 (by simp)
      | arr xs => dsimp only at hpa2; exact absurd hpa2 (by simp)
  · intro files' h1 h2
    unfold message_from_mailgun_parsed
    rw [parsed_attachments_two post files' hc, h1, h2,
      ← parsed_attachments_two post files hc, hpa]
    unfold message_from_mailgun_parsed at h
    rw [hpa] at h
    exact h

def post7w : QueryDict :=
  [("attachment-count", "2"),
   ("content-id-map", "\x7b\"<cid1>\": \"attachment-1\"\x7d"),
   ("message-headers", "[]")]

def files7w : Files :=
  [("attachment-1", { name := "a.txt", content := [104, 105] }),
   ("attachment-2", { name := "b.bin", content := [0, 255] }),
   ("other-field", { name := "c", content := [1] })]

def m7w : AnymailInboundMessage :=
  { headers := []
    text := none
    html := none
    attachments := some
      [{ filename := "a.txt", content := [104, 105], content_id := some "<cid1>" },
       { filename := "b.bin", content := [0, 255], content_id := none }]
    envelope_sender := none
    envelope_recipient := none
    stripped_text := none
    stripped_html := none
    spam_detected := false
    spam_score := none }

/-- Witness for C7 at a concrete request: `attachment-1` gets the inverted
content-id, `attachment-2` has none, the extra file field is ignored. -/
theorem attachment_reconstruction_witness :
    message_from_mailgun_parsed post7w files7w = .ok m7w
    ∧ (∀ files' : Files,
        filesGet? files' "attachment-1" = filesGet? files7w "attachment-1" →
        filesGet? files' "attachment-2" = filesGet? files7w "attachment-2" →
        message_from_mailgun_parsed post7w files' = .ok m7w) := by
  have hm : message_from_mailgun_parsed post7w files7w = .ok m7w := by
    with_unfolding_all rfl
  exact ⟨hm, fun files' h1 h2 =>
    (attachment_reconstruction post7w files7w m7w rfl hm).2 files' h1 h2⟩

/-- Helper: a successfully parsed inbound message has an unset spam score
(`construct` starts it unset; only `apply_request_fields` can set it). -/
theorem message_ok_spam_score_none (post : QueryDict) (files : Files)
    (m : AnymailInboundMessage)
    (h : message_from_mailgun_parsed post files = .ok m) :
    m.spam_score = none := by
  unfold message_from_mailgun_parsed at h
  split at h
  · exact absurd h (by simp)
  · split at h
    · exact absurd h (by simp)
    · split at h
      · exact absurd h (by simp)
      · split at h
        · exact absurd h (by simp)
        · injection h with h'
          rw [← h']
          rfl

/-- Helper: the message carried by a fully-parsed inbound event is the
constructed message with the request fields applied. -/
theorem inbound_ok_message (post : QueryDict) (files : Files)
    (ev : AnymailInboundEvent)
    (h : esp_to_anymail_event_parsed post files = .ok ev) :
    ∃ m0, message_from_mailgun_parsed post files = .ok m0
      ∧ ev.message = apply_request_fields m0 post := by
  unfold esp_to_anymail_event_parsed at h
  split at h
  · exact absurd h (by simp)
  · rename_i m0 hm0
    split at h
    · exact absurd h (by simp)
    · split at h
      · exact absurd h (by simp)
      · injection h with h'
        exact ⟨m0, hm0, by rw [← h']⟩

/-- Helper: how `apply_request_fields` sets the spam score. -/
theorem apply_spam_score (m : AnymailInboundMessage) (post : QueryDict) :
    (apply_request_fields m post).spam_score =
      match (getHeader m "X-Mailgun-Sscore").bind pyFloat? with
      | some r => some r
      | none => m.spam_score := rfl

/-- C9: for every fully-parsed inbound event, a present
`X-Mailgun-Sscore` header whose value parses as a float sets the message's
spam score to that float; a missing or non-numeric header leaves the spam
score unset (the parse failure is swallowed, not an error). -/
theorem spam_score_parse (post : QueryDict) (files : Files)
    (ev : AnymailInboundEvent)
    (h : esp_to_anymail_event_parsed post files = .ok ev) :
    (∀ s r, getHeader ev.message "X-Mailgun-Sscore" = some s →
        pyFloat? s = some r → ev.message.spam_score = some r)
    ∧ ((getHeader ev.message "X-Mailgun-Sscore").bind pyFloat? = none →
        ev.message.spam_score = none) := by
  obtain ⟨m0, hm0, hmsg⟩ := inbound_ok_message post files ev h
  have h0 : m0.spam_score = none := message_ok_spam_score_none post files m0 hm0
  have hheads : getHeader ev.message "X-Mailgun-Sscore"
      = getHeader m0 "X-Mailgun-Sscore" := by
    rw [hmsg]
    rfl
  have happ : ev.message.spam_score =
      match (getHeader m0 "X-Mailgun-Sscore").bind pyFloat? with
      | some r => some r
      | none => m0.spam_score := by
    rw [hmsg]
    exact apply_spam_score m0 post
  constructor
  · intro s r hs hr
    rw [hheads] at hs
    rw [happ, hs]
    simp [hr]
  · intro hn
    rw [hheads] at hn
    rw [happ, hn, h0]

def post9w : QueryDict :=
  [("message-headers", "[[\"X-Mailgun-Sscore\", \"5.5\"]]"), ("timestamp", "0")]

def ev9w : AnymailInboundEvent :=
  { event_type := EventType.inbound
    timestamp := 0
    event_id := none
    message :=
      { headers := [("X-Mailgun-Sscore", "5.5")]
        text := none
        html := none
        attachments := none
        envelope_sender := none
        envelope_recipient := none
        stripped_text := none
        stripped_html := none
        spam_detected := false
        spam_score := some (11 / 2 : ℚ) }
    esp_event_post := post9w
    esp_event_files := [] }

/-- Witness for C9: header value `"5.5"` produces spam score `5.5`. -/
theorem spam_score_parse_witness :
    esp_to_anymail_event_parsed post9w [] = .ok ev9w
    ∧ ev9w.message.spam_score = some (11 / 2 : ℚ) := by
  have hev : esp_to_anymail_event_parsed post9w [] = .ok ev9w := by
    with_unfolding_all rfl
  exact ⟨hev, (spam_score_parse post9w [] ev9w hev).1 "5.5" (11 / 2 : ℚ)
    (by with_unfolding_all rfl) (by with_unfolding_all rfl)⟩

set_option maxRecDepth 40000 in
/-- The SHA-256 model reproduces the FIPS 180 test vector for `"abc"`. -/
theorem sha256_test_vector :
    bytesToHex (sha256Bytes (encodeAscii "abc"))
      = "ba7816bf8f01cfea414140de5dae2223b00361a396177a9cb410ff61f20015ad" := by
  with_unfolding_all rfl

set_option maxRecDepth 40000 in
/-- The HMAC-SHA256 model reproduces
`hmac.new(b"key", b"1234tok", hashlib.sha256).hexdigest()`. -/
theorem hmac_sha256_test_vector :
    hmac_sha256_hexdigest (encodeAscii "key") (encodeAscii "1234tok")
      = "68c064d647c5c2c842d6a9528d8b980aa566957b62bb603bf7bfa9a8a3b65c62" := by
  with_unfolding_all rfl

/-- C1: for ASCII field values (the domain on which `.encode('ascii')`
succeeds), `validate_request` returns without error exactly when all of
`token`, `timestamp`, `signature` are present and the signature equals the
hex HMAC-SHA256 digest of `timestamp || token` under the configured key;
it raises a validation failure exactly when a field is missing or the
signature differs from that digest. -/
theorem validate_request_iff (api_key : List Nat) (q : QueryDict)
    (hta : ∀ token timestamp, qget? q "token" = some token →
        qget? q "timestamp" = some timestamp →
        asciiStr (timestamp ++ token) = true) :
    (validate_request api_key q = .ok () ↔
      ∃ token timestamp signature,
        qget? q "token" = some token ∧ qget? q "timestamp" = some timestamp
        ∧ qget? q "signature" = some signature
        ∧ signature = hmac_sha256_hexdigest api_key (encodeAscii (timestamp ++ token)))
    ∧ ((∃ e, validate_request api_key q = .error e) ↔
      (qget? q "token" = none ∨ qget? q "timestamp" = none
        ∨ qget? q "signature" = none)
      ∨ ∃ token timestamp signature,
          qget? q "token" = some token ∧ qget? q "timestamp" = some timestamp
          ∧ qget? q "signature" = some signature
          ∧ signature ≠ hmac_sha256_hexdigest api_key (encodeAscii (timestamp ++ token))) := by
  unfold validate_request
  cases ht : qget? q "token" with
  | none =>
    dsimp only
    constructor
    · simp
    · simp
  | some token =>
    cases hts : qget? q "timestamp" with
    | none =>
      dsimp only
      constructor
      · simp
      · simp
    | some timestamp =>
      cases hsg : qget? q "signature" with
      | none =>
        dsimp only
        constructor
        · simp
        · simp
      | some signature =>
        dsimp only
        have hascii : asciiStr (timestamp ++ token) = true := hta token timestamp ht hts
        simp only [hascii, Bool.not_true, Bool.false_eq_true, not_false_eq_true,
          not_true_eq_false, if_false, if_true]
        by_cases heq : signature = hmac_sha256_hexdigest api_key (encodeAscii (timestamp ++ token))
        · constructor
          · simp [constant_time_compare, heq]
          · simp [constant_time_compare, heq]
        · constructor
          · simp [constant_time_compare, heq]
          · simp [constant_time_compare, heq]

def q1w : QueryDict :=
  [("token", "tok"), ("timestamp", "1234"),
   ("signature", hmac_sha256_hexdigest (encodeAscii "key") (encodeAscii ("1234" ++ "tok")))]

/-- Witness for C1: a request carrying the correctly computed digest is
accepted. -/
theorem validate_request_iff_witness :
    validate_request (encodeAscii "key") q1w = .ok () := by
  have hta : ∀ token timestamp, qget? q1w "token" = some token →
      qget? q1w "timestamp" = some timestamp →
      asciiStr (timestamp ++ token) = true := by
    intro t ts h1 h2
    rw [show qget? q1w "token" = some "tok" from rfl] at h1
    rw [show qget? q1w "timestamp" = some "1234" from rfl] at h2
    injection h1 with e1
    injection h2 with e2
    rw [← e1, ← e2]
    decide
  exact (validate_request_iff (encodeAscii "key") q1w hta).1.mpr
    ⟨"tok", "1234",
     hmac_sha256_hexdigest (encodeAscii "key") (encodeAscii ("1234" ++ "tok")),
     rfl, rfl, rfl, rfl⟩

end Mailgun
